import Mathlib

/-!
Shallow embedding of the beam-analysis engine (`src/js/beam-analysis.js`) and
of the plot sampler (`src/js/analysis-plotter.js`).

JavaScript numbers are modelled by exact rationals (`ℚ`); the claims under
study are explicitly stated "in exact arithmetic".  Every `throw new Error`
in an Equation becomes `Except.error (EquationError.invalidArgument _)`:
the specification classifies all equation-level failures as `InvalidArgument`
domain errors.  The optional JavaScript parameter `isPrimarySpan = false` is
modelled by an `Option Bool` argument together with `Option.getD false`,
mirroring the default-parameter semantics (passing `none` is the call that
omits the flag).  The sampler `for`-loops are modelled by fuel recursion;
the fuel supplied by the wrappers is proved sufficient (the produced sequence
terminates with the clamped final sample exactly as the source loop does).
The segment count is modelled as a natural number, as in all claims under
study (the JavaScript default is 10).
-/

structure MaterialProperties where
  EI : ℚ
  j2 : ℚ
deriving DecidableEq, Repr

structure Material where
  name : String
  properties : MaterialProperties
deriving DecidableEq, Repr

structure Beam where
  primarySpan : ℚ
  secondarySpan : ℚ
  material : Material
deriving DecidableEq, Repr

structure EquationResult where
  x : ℚ
  y : ℚ
deriving DecidableEq, Repr

inductive EquationError where
  | invalidArgument (msg : String)
deriving DecidableEq, Repr

/-- An equation call fails with an `InvalidArgument` error. -/
def failsInvalidArgument (r : Except EquationError EquationResult) : Prop :=
  ∃ msg, r = Except.error (EquationError.invalidArgument msg)

/-- An equation call succeeds with some chart point. -/
def returnsOk (r : Except EquationError EquationResult) : Prop :=
  ∃ p, r = Except.ok p

namespace simplySupported

/-- `BeamAnalysis.analyzer.simplySupported.getDeflectionEquation` (beam-analysis.js). -/
def getDeflectionEquation (beam : Beam) (load : ℚ) (x : ℚ) :
    Except EquationError EquationResult :=
  let EI := beam.material.properties.EI
  let j2 := beam.material.properties.j2
  let eiInKilos := EI / 1000 ^ 3
  if x > beam.primarySpan ∨ x < 0 then
    .error (.invalidArgument "Invalid x value")
  else
    .ok ⟨x, -1 * (load * x / (24 * eiInKilos)) *
      (beam.primarySpan ^ 3 - 2 * beam.primarySpan * x ^ 2 + x ^ 3) * j2 * 1000⟩

/-- `BeamAnalysis.analyzer.simplySupported.getBendingMomentEquation` (beam-analysis.js). -/
def getBendingMomentEquation (beam : Beam) (load : ℚ) (x : ℚ) :
    Except EquationError EquationResult :=
  if x > beam.primarySpan ∨ x < 0 then
    .error (.invalidArgument "Invalid x value")
  else
    .ok ⟨x, load * x / 2 * (beam.primarySpan - x) * (-1)⟩

/-- `BeamAnalysis.analyzer.simplySupported.getShearForceEquation` (beam-analysis.js). -/
def getShearForceEquation (beam : Beam) (load : ℚ) (x : ℚ) :
    Except EquationError EquationResult :=
  if x > beam.primarySpan ∨ x < 0 then
    .error (.invalidArgument "Invalid x value")
  else
    .ok ⟨x, load * (beam.primarySpan / 2 - x)⟩

end simplySupported

namespace twoSpanUnequal

/-- `twoSpanUnequal.getM1` (beam-analysis.js): interior-support moment. -/
def getM1 (beam : Beam) (load : ℚ) : ℚ :=
  -((load * beam.secondarySpan ^ 3 + load * beam.primarySpan ^ 3) /
    (8 * (beam.primarySpan + beam.secondarySpan)))

/-- `twoSpanUnequal.getR1` (beam-analysis.js): left end reaction. -/
def getR1 (beam : Beam) (load : ℚ) (m1 : ℚ) : ℚ :=
  m1 / beam.primarySpan + load * beam.primarySpan / 2

/-- `twoSpanUnequal.getR3` (beam-analysis.js): right end reaction. -/
def getR3 (beam : Beam) (load : ℚ) (m1 : ℚ) : ℚ :=
  m1 / beam.secondarySpan + load * beam.secondarySpan / 2

/-- `twoSpanUnequal.getR2` (beam-analysis.js): interior support reaction. -/
def getR2 (beam : Beam) (load : ℚ) (r1 : ℚ) (r3 : ℚ) : ℚ :=
  load * beam.primarySpan + load * beam.secondarySpan - r1 - r3

/-- `twoSpanUnequal.getDeflectionEquation` (beam-analysis.js). -/
def getDeflectionEquation (beam : Beam) (load : ℚ) (x : ℚ) :
    Except EquationError EquationResult :=
  let totalLength := beam.primarySpan + beam.secondarySpan
  let m1 := getM1 beam load
  let r1 := getR1 beam load m1
  let r3 := getR3 beam load m1
  let r2 := getR2 beam load r1 r3
  let EI := beam.material.properties.EI
  let j2 := beam.material.properties.j2
  let hundredCubed : ℚ := 1000 ^ 3
  if x < 0 ∨ x > totalLength then
    .error (.invalidArgument "Invalid x value. Must be between 0 and total length")
  else if x = 0 then
    .ok ⟨x, 0⟩
  else if x ≤ beam.primarySpan then
    .ok ⟨x, x / (24 * (EI / hundredCubed)) *
      (4 * r1 * x ^ 2 - load * x ^ 3 + load * beam.primarySpan ^ 3 -
        4 * r1 * beam.primarySpan ^ 2) * 1000 * j2⟩
  else if x > beam.primarySpan then
    let p1 := r1 * x / 6 * (x ^ 2 - beam.primarySpan ^ 2)
    let p2 := r2 * x / 6 * (x ^ 2 - 3 * beam.primarySpan * x + 3 * beam.primarySpan ^ 2)
    let p3 := r2 * beam.primarySpan ^ 3 / 6
    let p4 := load * x / 24 * (x ^ 3 - beam.primarySpan ^ 3)
    .ok ⟨x, (p1 + p2 - p3 - p4) * 1 / (EI / hundredCubed) * 1000 * j2⟩
  else
    .error (.invalidArgument "Invalid condition on x")

/-- `twoSpanUnequal.getBendingMomentEquation` (beam-analysis.js).  The second
argument models the optional `isPrimarySpan = false` parameter (unused by
this equation, as in the source). -/
def getBendingMomentEquation (beam : Beam) (load : ℚ) (x : ℚ)
    (_isPrimarySpanArg : Option Bool) : Except EquationError EquationResult :=
  let totalLength := beam.primarySpan + beam.secondarySpan
  let m1 := getM1 beam load
  let r1 := getR1 beam load m1
  let r3 := getR3 beam load m1
  let r2 := getR2 beam load r1 r3
  if x < 0 ∨ x > totalLength then
    .error (.invalidArgument "Invalid x value. Must be between 0 and total length")
  else if x = 0 ∨ x = totalLength then
    .ok ⟨x, 0⟩
  else if x < beam.primarySpan then
    .ok ⟨x, -1 * (r1 * x - load * x ^ 2 * (1 / 2))⟩
  else if x = beam.primarySpan then
    .ok ⟨x, -1 * (r1 * beam.primarySpan - 1 / 2 * (load * beam.primarySpan ^ 2))⟩
  else if x > beam.primarySpan then
    .ok ⟨x, -1 * (r1 * x + r2 * (x - beam.primarySpan) - 1 / 2 * load * x ^ 2)⟩
  else
    .error (.invalidArgument "Invalid condition on x")

/-- `twoSpanUnequal.getShearForceEquation` (beam-analysis.js).  The second
argument models the optional `isPrimarySpan = false` parameter: `none` is a
call that omits the flag, and the source default `= false` is reproduced by
`Option.getD false`. -/
def getShearForceEquation (beam : Beam) (load : ℚ) (x : ℚ)
    (isPrimarySpanArg : Option Bool) : Except EquationError EquationResult :=
  let totalLength := beam.primarySpan + beam.secondarySpan
  let m1 := getM1 beam load
  let r1 := getR1 beam load m1
  let r3 := getR3 beam load m1
  let r2 := getR2 beam load r1 r3
  let isPrimarySpan := isPrimarySpanArg.getD false
  if x < 0 ∨ x > totalLength then
    .error (.invalidArgument "Invalid x value. Must be between 0 and total length")
  else if x = 0 then
    .ok ⟨x, r1⟩
  else if x = totalLength then
    .ok ⟨x, r1 + r2 - load * totalLength⟩
  else if 0 < x ∧ x < beam.primarySpan then
    .ok ⟨x, r1 - load * x⟩
  else if beam.primarySpan < x ∧ x < totalLength then
    .ok ⟨x, r1 + r2 - load * x⟩
  else if x = beam.primarySpan ∧ isPrimarySpan = true then
    .ok ⟨x, r1 - load * beam.primarySpan⟩
  else if x = beam.primarySpan ∧ isPrimarySpan = false then
    .ok ⟨x, r1 + r2 - load * beam.primarySpan⟩
  else
    .error (.invalidArgument "Invalid condition on x")

end twoSpanUnequal

namespace analysisPlotter

/-- One sample produced by the sampler (`XValues` entries in analysis-plotter.js). -/
structure XValue where
  value : ℚ
  isPrimarySpan : Bool
deriving DecidableEq, Repr

/-- Loop body of `getSimplyXValues` for iterations `i ≥ 1`: advance by one
segment and clamp to the total length. -/
def simplyStep (total per prev : ℚ) : ℚ :=
  if prev + per > total then total else prev + per

/-- The `for` loop of `getSimplyXValues` from iteration 1 on, with explicit
fuel.  `prev` is the previously pushed sample value, which is exactly the
loop variable `x` tested by the loop condition in the source. -/
def simplyLoop (total per : ℚ) : ℕ → ℚ → List XValue
  | 0, _ => []
  | fuel + 1, prev =>
    if prev < total then
      ⟨simplyStep total per prev, true⟩ ::
        simplyLoop total per fuel (simplyStep total per prev)
    else []

/-- `AnalysisPlotter.getSimplyXValues` (analysis-plotter.js). -/
def getSimplyXValues (beam : Beam) (segmentSize : ℕ) : List XValue :=
  let totalLength := beam.primarySpan
  let perSegmentLength := totalLength / (segmentSize : ℚ)
  if 0 < totalLength then
    ⟨0, true⟩ :: simplyLoop totalLength perSegmentLength (segmentSize + 2) 0
  else []

/-- Loop body of `getTwoSpanUnequalXValues` for iterations `i ≥ 1`: returns
the pushed sample and the updated `isOnSecondarySpan` flag. -/
def twoSpanStep (primary total per prev : ℚ) (secondary : Bool) : XValue × Bool :=
  let x1 := if prev + per > total then total else prev + per
  if secondary then
    (⟨x1, false⟩, true)
  else
    let x2 := if x1 > primary then primary else x1
    let sec2 : Bool := if x1 > primary ∧ prev = primary then true else false
    let x3 := if x2 > total then total else x2
    (⟨x3, !sec2⟩, sec2)

/-- The `for` loop of `getTwoSpanUnequalXValues` from iteration 1 on, with
explicit fuel. -/
def twoSpanLoop (primary total per : ℚ) : ℕ → ℚ → Bool → List XValue
  | 0, _, _ => []
  | fuel + 1, prev, secondary =>
    if prev < total then
      (twoSpanStep primary total per prev secondary).1 ::
        twoSpanLoop primary total per fuel
          (twoSpanStep primary total per prev secondary).1.value
          (twoSpanStep primary total per prev secondary).2
    else []

/-- `AnalysisPlotter.getTwoSpanUnequalXValues` (analysis-plotter.js). -/
def getTwoSpanUnequalXValues (beam : Beam) (segmentSize : ℕ) : List XValue :=
  let totalLength := beam.primarySpan + beam.secondarySpan
  let perSegmentLength := totalLength / (segmentSize : ℚ)
  if 0 < totalLength then
    ⟨0, true⟩ ::
      twoSpanLoop beam.primarySpan totalLength perSegmentLength
        (2 * segmentSize + 4) 0 false
  else []

end analysisPlotter

/-- The concrete simply-supported scenario beam of the specification:
primary span 6, secondary span 0, EI = 1e9, j2 = 1. -/
def beamSS : Beam := ⟨6, 0, ⟨"timber", ⟨1000000000, 1⟩⟩⟩

/-- The concrete two-span scenario beam of the specification:
primary span 4, secondary span 6, EI = 1e9, j2 = 1. -/
def beamTS : Beam := ⟨4, 6, ⟨"timber", ⟨1000000000, 1⟩⟩⟩

/-! ## Helper lemmas -/

open analysisPlotter

theorem getLast?_cons_of_ne_nil {α : Type} (a : α) {l : List α} (h : l ≠ []) :
    (a :: l).getLast? = l.getLast? := by
  cases l with
  | nil => exact absurd rfl h
  | cons b t => simp [List.getLast?_cons_cons]

theorem ne_nil_of_getLast?_eq_some {α : Type} {l : List α} {a : α}
    (h : l.getLast? = some a) : l ≠ [] := by
  intro hn
  rw [hn] at h
  simp at h

theorem simplyLoop_stop (total per prev : ℚ) (fuel : ℕ) (h : ¬ prev < total) :
    simplyLoop total per fuel prev = [] := by
  cases fuel with
  | zero => rfl
  | succ n => simp [simplyLoop, h]

theorem twoSpanLoop_stop (primary total per prev : ℚ) (secondary : Bool) (fuel : ℕ)
    (h : ¬ prev < total) :
    twoSpanLoop primary total per fuel prev secondary = [] := by
  cases fuel with
  | zero => rfl
  | succ n => simp [twoSpanLoop, h]

/-- Invariant of the simply-supported sampler loop: starting below the total
length with enough fuel, every produced sample is tagged as primary span, the
values strictly increase above the starting point, and the last value is
exactly the total length. -/
theorem simplyLoop_spec (total per : ℚ) (hper : 0 < per) :
    ∀ (fuel : ℕ) (prev : ℚ), prev < total → total ≤ prev + fuel * per →
      (∀ s ∈ simplyLoop total per fuel prev, s.isPrimarySpan = true) ∧
      List.Chain' (· < ·) (prev :: (simplyLoop total per fuel prev).map XValue.value) ∧
      ((simplyLoop total per fuel prev).map XValue.value).getLast? = some total := by
  intro fuel
  induction fuel with
  | zero =>
    intro prev h1 h2
    exfalso
    simp only [Nat.cast_zero, zero_mul, add_zero] at h2
    linarith
  | succ n ih =>
    intro prev h1 h2
    have hcast : ((n : ℚ) + 1) * per = per + n * per := by ring
    by_cases hlt : prev + per < total
    · have hstep : simplyStep total per prev = prev + per := by
        rw [simplyStep, if_neg (by linarith)]
      have ihn := ih (prev + per) hlt (by push_cast at h2 ⊢; linarith)
      have hne : ((simplyLoop total per n (prev + per)).map XValue.value) ≠ [] :=
        ne_nil_of_getLast?_eq_some ihn.2.2
      simp only [simplyLoop, if_pos h1, hstep]
      refine ⟨?_, ?_, ?_⟩
      · intro s hs
        rcases List.mem_cons.mp hs with h | h
        · rw [h]
        · exact ihn.1 s h
      · exact List.chain'_cons.mpr ⟨show prev < prev + per by linarith, ihn.2.1⟩
      · rw [List.map_cons, getLast?_cons_of_ne_nil _ hne]
        exact ihn.2.2
    · have hstep : simplyStep total per prev = total := by
        rw [simplyStep]
        split_ifs with h
        · rfl
        · linarith
      have htail : simplyLoop total per n total = [] :=
        simplyLoop_stop total per total n (lt_irrefl total)
      simp only [simplyLoop, if_pos h1, hstep, htail]
      refine ⟨?_, ?_, ?_⟩
      · intro s hs
        rcases List.mem_cons.mp hs with h | h
        · rw [h]
        · simp at h
      · simp [h1]
      · simp

theorem twoSpanStep_secondary (primary total per prev : ℚ) :
    twoSpanStep primary total per prev true =
      (⟨if prev + per > total then total else prev + per, false⟩, true) := rfl

/-- Before the interior support, a non-crossing step just advances by one
segment and stays tagged primary. -/
theorem twoSpanStep_before (primary total per prev : ℚ)
    (hx1 : prev + per < primary) (hpt : primary < total) :
    twoSpanStep primary total per prev false = (⟨prev + per, true⟩, false) := by
  have h1 : ¬ prev + per > total := by linarith
  have h2 : ¬ prev + per > primary := by linarith
  simp [twoSpanStep, h1, h2]

/-- A step that reaches or crosses the interior support from strictly below
is clamped to land exactly on the support, still tagged primary. -/
theorem twoSpanStep_reach (primary total per prev : ℚ)
    (hprev : prev < primary) (hx1 : primary ≤ prev + per) (hpt : primary < total) :
    twoSpanStep primary total per prev false = (⟨primary, true⟩, false) := by
  have hne : ¬ prev = primary := ne_of_lt hprev
  by_cases hc : prev + per > total
  · simp [twoSpanStep, hc, hpt, hpt.asymm, hne]
  · rcases lt_or_eq_of_le hx1 with h | h
    · simp [twoSpanStep, hc, h, hne, hpt.asymm]
    · simp [twoSpanStep, ← h, hpt.asymm, hne]

/-- The step taken from exactly the interior support while still in primary
mode re-emits the support point tagged secondary and switches modes. -/
theorem twoSpanStep_at (primary total per : ℚ) (hper : 0 < per) (hpt : primary < total) :
    twoSpanStep primary total per primary false = (⟨primary, false⟩, true) := by
  by_cases hc : primary + per > total
  · simp [twoSpanStep, hc, hpt, hpt.asymm]
  · have hgt : primary < primary + per := by linarith
    simp [twoSpanStep, hc, hgt, hpt.asymm]

/-- Invariant of the two-span sampler loop in secondary mode: every sample is
tagged secondary, the values strictly increase, and the last value is exactly
the total length. -/
theorem twoSpanLoop_secondary_spec (primary total per : ℚ) (hper : 0 < per) :
    ∀ (fuel : ℕ) (prev : ℚ), prev < total → total ≤ prev + fuel * per →
      (∀ s ∈ twoSpanLoop primary total per fuel prev true, s.isPrimarySpan = false) ∧
      List.Chain' (· < ·)
        (prev :: (twoSpanLoop primary total per fuel prev true).map XValue.value) ∧
      ((twoSpanLoop primary total per fuel prev true).map XValue.value).getLast? =
        some total := by
  intro fuel
  induction fuel with
  | zero =>
    intro prev h1 h2
    exfalso
    simp only [Nat.cast_zero, zero_mul, add_zero] at h2
    linarith
  | succ n ih =>
    intro prev h1 h2
    by_cases hlt : prev + per < total
    · have hstep : twoSpanStep primary total per prev true = (⟨prev + per, false⟩, true) := by
        rw [twoSpanStep_secondary, if_neg (by linarith)]
      have ihn := ih (prev + per) hlt (by push_cast at h2 ⊢; linarith)
      have hne : ((twoSpanLoop primary total per n (prev + per) true).map XValue.value) ≠ [] :=
        ne_nil_of_getLast?_eq_some ihn.2.2
      simp only [twoSpanLoop, if_pos h1, hstep]
      refine ⟨?_, ?_, ?_⟩
      · intro s hs
        rcases List.mem_cons.mp hs with h | h
        · rw [h]
        · exact ihn.1 s h
      · exact List.chain'_cons.mpr ⟨show prev < prev + per by linarith, ihn.2.1⟩
      · rw [List.map_cons, getLast?_cons_of_ne_nil _ hne]
        exact ihn.2.2
    · have hstep : twoSpanStep primary total per prev true = (⟨total, false⟩, true) := by
        rw [twoSpanStep_secondary]
        split_ifs with h
        · rfl
        · have : prev + per = total := by linarith
          rw [this]
      have htail : twoSpanLoop primary total per n total true = [] :=
        twoSpanLoop_stop primary total per total true n (lt_irrefl total)
      simp only [twoSpanLoop, if_pos h1, hstep, htail]
      refine ⟨?_, ?_, ?_⟩
      · intro s hs
        rcases List.mem_cons.mp hs with h | h
        · rw [h]
        · simp at h
      · simp [h1]
      · simp

/-- One-step unfolding of the running two-span sampler loop. -/
theorem twoSpanLoop_succ (primary total per prev : ℚ) (secondary : Bool) (fuel : ℕ)
    (h : prev < total) :
    twoSpanLoop primary total per (fuel + 1) prev secondary =
      (twoSpanStep primary total per prev secondary).1 ::
        twoSpanLoop primary total per fuel
          (twoSpanStep primary total per prev secondary).1.value
          (twoSpanStep primary total per prev secondary).2 := by
  simp only [twoSpanLoop, if_pos h]

/-- Unfolding the loop once from exactly the interior support in primary mode:
the support sample is re-emitted tagged secondary and the loop switches to
secondary mode, exactly as the accumulator-restart logic in the source. -/
theorem twoSpanLoop_at_support (primary total per : ℚ) (hper : 0 < per)
    (hpt : primary < total) (fuel : ℕ) :
    twoSpanLoop primary total per (fuel + 1) primary false =
      ⟨primary, false⟩ :: twoSpanLoop primary total per fuel primary true := by
  simp only [twoSpanLoop, if_pos hpt, twoSpanStep_at primary total per hper hpt]

/-- Decomposition of the two-span sampler loop started in primary mode
strictly below the interior support: the output is a strictly increasing
primary-tagged prefix strictly below the support, then the support value
twice (tagged primary then secondary), then a strictly increasing
secondary-tagged suffix ending exactly at the total length. -/
theorem twoSpanLoop_primary_spec (primary total per : ℚ) (hper : 0 < per)
    (hpt : primary < total) :
    ∀ (fuel : ℕ) (prev : ℚ), prev < primary →
      total + 2 * per ≤ prev + fuel * per →
      ∃ A B,
        twoSpanLoop primary total per fuel prev false =
          A ++ ⟨primary, true⟩ :: ⟨primary, false⟩ :: B ∧
        (∀ s ∈ A, s.isPrimarySpan = true) ∧
        List.Chain' (· < ·) (prev :: (A.map XValue.value ++ [primary])) ∧
        (∀ s ∈ B, s.isPrimarySpan = false) ∧
        List.Chain' (· < ·) (primary :: B.map XValue.value) ∧
        (B.map XValue.value).getLast? = some total := by
  intro fuel
  induction fuel with
  | zero =>
    intro prev h1 h2
    exfalso
    simp only [Nat.cast_zero, zero_mul, add_zero] at h2
    linarith
  | succ n ih =>
    intro prev h1 h2
    have hprevtot : prev < total := by linarith
    by_cases hcross : prev + per < primary
    · -- ordinary primary-span step
      have hstep := twoSpanStep_before primary total per prev hcross hpt
      obtain ⟨A, B, heq, hA, hchainA, hB, hchainB, hlast⟩ :=
        ih (prev + per) hcross (by push_cast at h2 ⊢; linarith)
      refine ⟨⟨prev + per, true⟩ :: A, B, ?_, ?_, ?_, hB, hchainB, hlast⟩
      · simp only [twoSpanLoop, if_pos hprevtot, hstep, heq, List.cons_append]
      · intro s hs
        rcases List.mem_cons.mp hs with h | h
        · rw [h]
        · exact hA s h
      · exact List.chain'_cons.mpr ⟨show prev < prev + per by linarith, hchainA⟩
    · -- the step reaches or crosses the support: clamp to the support point
      have hstep := twoSpanStep_reach primary total per prev h1 (by linarith) hpt
      have hn : n ≠ 0 := by
        intro h0
        rw [h0] at h2
        push_cast at h2
        linarith
      obtain ⟨m, rfl⟩ := Nat.exists_eq_succ_of_ne_zero hn
      have hsec := twoSpanLoop_secondary_spec primary total per hper m primary hpt
        (by push_cast at h2 ⊢; linarith)
      refine ⟨[], twoSpanLoop primary total per m primary true, ?_, ?_, ?_,
        hsec.1, hsec.2.1, hsec.2.2⟩
      · simp only [List.nil_append]
        rw [twoSpanLoop_succ primary total per prev false (m + 1) hprevtot]
        simp only [hstep]
        rw [twoSpanLoop_at_support primary total per hper hpt m]
      · intro s hs
        simp at hs
      · simpa using List.chain'_pair.mpr h1

/-! ## Claim theorems -/

/-- C8: for every simply-supported beam with primary span `L > 0` and every
positive segment count, every sample produced by `getSimplyXValues` is tagged
`isPrimarySpan = true`, the sequence of x values is strictly increasing,
starts at `0`, and its final element equals exactly `L`. -/
theorem claimC8_simply_sampler (beam : Beam) (n : ℕ)
    (hL : 0 < beam.primarySpan) (hn : 0 < n) :
    (∀ s ∈ getSimplyXValues beam n, s.isPrimarySpan = true) ∧
    List.Chain' (· < ·) ((getSimplyXValues beam n).map XValue.value) ∧
    (getSimplyXValues beam n).head? = some ⟨0, true⟩ ∧
    ((getSimplyXValues beam n).map XValue.value).getLast? = some beam.primarySpan := by
  have hn' : (0 : ℚ) < (n : ℚ) := by exact_mod_cast hn
  have hper : 0 < beam.primarySpan / (n : ℚ) := div_pos hL hn'
  have hkey : ((n : ℚ) + 2) * (beam.primarySpan / (n : ℚ)) =
      beam.primarySpan + 2 * (beam.primarySpan / (n : ℚ)) := by
    field_simp
    ring
  have hfuel : beam.primarySpan ≤ 0 + ((n + 2 : ℕ) : ℚ) * (beam.primarySpan / (n : ℚ)) := by
    push_cast
    rw [zero_add, hkey]
    linarith
  have spec := simplyLoop_spec beam.primarySpan (beam.primarySpan / (n : ℚ)) hper
    (n + 2) 0 hL hfuel
  have hne : ((simplyLoop beam.primarySpan (beam.primarySpan / (n : ℚ)) (n + 2) 0).map
      XValue.value) ≠ [] := ne_nil_of_getLast?_eq_some spec.2.2
  simp only [getSimplyXValues, if_pos hL]
  refine ⟨?_, ?_, ?_, ?_⟩
  · intro s hs
    rcases List.mem_cons.mp hs with h | h
    · rw [h]
    · exact spec.1 s h
  · simpa using spec.2.1
  · rfl
  · rw [List.map_cons, getLast?_cons_of_ne_nil _ hne]
    exact spec.2.2

/-- C8 witness: the concrete simply-supported scenario beam with the default
segment count. -/
theorem claimC8_simply_sampler_witness :
    (∀ s ∈ getSimplyXValues beamSS 10, s.isPrimarySpan = true) ∧
    List.Chain' (· < ·) ((getSimplyXValues beamSS 10).map XValue.value) ∧
    (getSimplyXValues beamSS 10).head? = some ⟨0, true⟩ ∧
    ((getSimplyXValues beamSS 10).map XValue.value).getLast? = some beamSS.primarySpan :=
  claimC8_simply_sampler beamSS 10 (by norm_num [beamSS]) (by norm_num)

/-- C3: for every two-span beam with positive spans and the default segment
count, the sampler output contains the value `L1` exactly twice, at adjacent
positions, the first tagged `isPrimarySpan = true` and the second tagged
`isPrimarySpan = false`; the final sample equals exactly `L1 + L2`. -/
theorem claimC3_twoSpan_sampler (beam : Beam)
    (h1 : 0 < beam.primarySpan) (h2 : 0 < beam.secondarySpan) :
    ((getTwoSpanUnequalXValues beam 10).map XValue.value).count beam.primarySpan = 2 ∧
    (∃ A B, getTwoSpanUnequalXValues beam 10 =
        A ++ ⟨beam.primarySpan, true⟩ :: ⟨beam.primarySpan, false⟩ :: B ∧
      (∀ v ∈ A.map XValue.value, v < beam.primarySpan) ∧
      (∀ v ∈ B.map XValue.value, beam.primarySpan < v)) ∧
    ((getTwoSpanUnequalXValues beam 10).map XValue.value).getLast? =
      some (beam.primarySpan + beam.secondarySpan) := by
  have htotal : 0 < beam.primarySpan + beam.secondarySpan := by linarith
  have hper : 0 < (beam.primarySpan + beam.secondarySpan) / ((10 : ℕ) : ℚ) := by
    apply div_pos htotal
    norm_num
  have hpt : beam.primarySpan < beam.primarySpan + beam.secondarySpan := by linarith
  have hfuel : beam.primarySpan + beam.secondarySpan +
      2 * ((beam.primarySpan + beam.secondarySpan) / ((10 : ℕ) : ℚ)) ≤
      0 + ((2 * 10 + 4 : ℕ) : ℚ) *
        ((beam.primarySpan + beam.secondarySpan) / ((10 : ℕ) : ℚ)) := by
    push_cast
    rw [zero_add]
    have hkey : (24 : ℚ) * ((beam.primarySpan + beam.secondarySpan) / 10) =
        (12 : ℚ) / 5 * (beam.primarySpan + beam.secondarySpan) := by ring
    have hkey2 : (2 : ℚ) * ((beam.primarySpan + beam.secondarySpan) / 10) =
        (1 : ℚ) / 5 * (beam.primarySpan + beam.secondarySpan) := by ring
    rw [hkey, hkey2]
    linarith
  obtain ⟨A, B, heq, hA, hchainA, hB, hchainB, hlast⟩ :=
    twoSpanLoop_primary_spec beam.primarySpan (beam.primarySpan + beam.secondarySpan)
      ((beam.primarySpan + beam.secondarySpan) / ((10 : ℕ) : ℚ)) hper hpt
      (2 * 10 + 4) 0 h1 hfuel
  have hAlt : ∀ v ∈ A.map XValue.value, v < beam.primarySpan := by
    have hpw := List.chain'_iff_pairwise.mp hchainA
    have hpw2 := (List.pairwise_cons.mp hpw).2
    have hcross := (List.pairwise_append.mp hpw2).2.2
    intro v hv
    exact hcross v hv beam.primarySpan (List.mem_singleton.mpr rfl)
  have hBgt : ∀ v ∈ B.map XValue.value, beam.primarySpan < v := by
    have hpw := List.chain'_iff_pairwise.mp hchainB
    exact (List.pairwise_cons.mp hpw).1
  have hnotA : beam.primarySpan ∉ A.map XValue.value :=
    fun hm => absurd (hAlt _ hm) (lt_irrefl _)
  have hnotB : beam.primarySpan ∉ B.map XValue.value :=
    fun hm => absurd (hBgt _ hm) (lt_irrefl _)
  have hBne : B.map XValue.value ≠ [] := ne_nil_of_getLast?_eq_some hlast
  simp only [getTwoSpanUnequalXValues, if_pos htotal, heq]
  refine ⟨?_, ?_, ?_⟩
  · rw [List.map_cons, List.map_append, List.map_cons, List.map_cons,
      List.count_cons_of_ne (ne_of_gt h1), List.count_append,
      List.count_eq_zero.mpr hnotA, List.count_cons_self, List.count_cons_self,
      List.count_eq_zero.mpr hnotB]
  · refine ⟨⟨0, true⟩ :: A, B, by rw [List.cons_append], ?_, hBgt⟩
    intro v hv
    rw [List.map_cons] at hv
    rcases List.mem_cons.mp hv with h | h
    · rw [h]; exact h1
    · exact hAlt v h
  · rw [List.map_cons, List.map_append, List.map_cons, List.map_cons,
      getLast?_cons_of_ne_nil _ (by simp),
      List.getLast?_append_of_ne_nil _ (by simp),
      getLast?_cons_of_ne_nil _ (by simp [hBne]),
      getLast?_cons_of_ne_nil _ hBne]
    exact hlast

/-! ### Branch evaluation lemmas for the two-span equations -/

theorem tsShear_zero (beam : Beam) (load : ℚ) (ob : Option Bool)
    (h : 0 ≤ beam.primarySpan + beam.secondarySpan) :
    twoSpanUnequal.getShearForceEquation beam load 0 ob =
      .ok ⟨0, twoSpanUnequal.getR1 beam load (twoSpanUnequal.getM1 beam load)⟩ := by
  have c1 : ¬ ((0 : ℚ) < 0 ∨ (0 : ℚ) > beam.primarySpan + beam.secondarySpan) := by
    push_neg
    exact ⟨le_refl 0, h⟩
  simp [twoSpanUnequal.getShearForceEquation, c1]
  all_goals first
  | linarith
  | (constructor <;> linarith)

theorem tsShear_total (beam : Beam) (load : ℚ) (ob : Option Bool)
    (h : 0 < beam.primarySpan + beam.secondarySpan) :
    twoSpanUnequal.getShearForceEquation beam load
        (beam.primarySpan + beam.secondarySpan) ob =
      .ok ⟨beam.primarySpan + beam.secondarySpan,
        twoSpanUnequal.getR1 beam load (twoSpanUnequal.getM1 beam load) +
        twoSpanUnequal.getR2 beam load
          (twoSpanUnequal.getR1 beam load (twoSpanUnequal.getM1 beam load))
          (twoSpanUnequal.getR3 beam load (twoSpanUnequal.getM1 beam load)) -
        load * (beam.primarySpan + beam.secondarySpan)⟩ := by
  have c1 : ¬ (beam.primarySpan + beam.secondarySpan < 0 ∨
      beam.primarySpan + beam.secondarySpan > beam.primarySpan + beam.secondarySpan) := by
    push_neg
    exact ⟨le_of_lt h, le_refl _⟩
  have c2 : ¬ (beam.primarySpan + beam.secondarySpan = 0) := ne_of_gt h
  simp [twoSpanUnequal.getShearForceEquation, c1, c2]
  all_goals first
  | linarith
  | (constructor <;> linarith)

theorem tsShear_left (beam : Beam) (load x : ℚ) (ob : Option Bool)
    (h0 : 0 < x) (hx : x < beam.primarySpan) (h2 : 0 ≤ beam.secondarySpan) :
    twoSpanUnequal.getShearForceEquation beam load x ob =
      .ok ⟨x, twoSpanUnequal.getR1 beam load (twoSpanUnequal.getM1 beam load) -
        load * x⟩ := by
  have c1 : ¬ (x < 0 ∨ x > beam.primarySpan + beam.secondarySpan) := by
    push_neg
    constructor <;> linarith
  have c2 : ¬ (x = 0) := ne_of_gt h0
  have c3 : ¬ (x = beam.primarySpan + beam.secondarySpan) := by
    intro h
    linarith
  have c4 : 0 < x ∧ x < beam.primarySpan := ⟨h0, hx⟩
  simp [twoSpanUnequal.getShearForceEquation, c1, c2, c3, c4]

theorem tsShear_right (beam : Beam) (load x : ℚ) (ob : Option Bool)
    (h1 : 0 < beam.primarySpan) (hgt : beam.primarySpan < x)
    (hlt : x < beam.primarySpan + beam.secondarySpan) :
    twoSpanUnequal.getShearForceEquation beam load x ob =
      .ok ⟨x, twoSpanUnequal.getR1 beam load (twoSpanUnequal.getM1 beam load) +
        twoSpanUnequal.getR2 beam load
          (twoSpanUnequal.getR1 beam load (twoSpanUnequal.getM1 beam load))
          (twoSpanUnequal.getR3 beam load (twoSpanUnequal.getM1 beam load)) -
        load * x⟩ := by
  have c1 : ¬ (x < 0 ∨ x > beam.primarySpan + beam.secondarySpan) := by
    push_neg
    constructor <;> linarith
  have c2 : ¬ (x = 0) := by
    intro h
    linarith
  have c3 : ¬ (x = beam.primarySpan + beam.secondarySpan) := by
    intro h
    linarith
  have c4 : ¬ (0 < x ∧ x < beam.primarySpan) := fun h => absurd h.2 (not_lt.mpr (le_of_lt hgt))
  have c5 : beam.primarySpan < x ∧ x < beam.primarySpan + beam.secondarySpan := ⟨hgt, hlt⟩
  simp [twoSpanUnequal.getShearForceEquation, c1, c2, c3, c4, c5]

theorem tsShear_support_true (beam : Beam) (load : ℚ)
    (h1 : 0 < beam.primarySpan) (h2 : 0 < beam.secondarySpan) :
    twoSpanUnequal.getShearForceEquation beam load beam.primarySpan (some true) =
      .ok ⟨beam.primarySpan,
        twoSpanUnequal.getR1 beam load (twoSpanUnequal.getM1 beam load) -
        load * beam.primarySpan⟩ := by
  have c1 : ¬ (beam.primarySpan < 0 ∨
      beam.primarySpan > beam.primarySpan + beam.secondarySpan) := by
    push_neg
    constructor <;> linarith
  have c2 : ¬ (beam.primarySpan = 0) := ne_of_gt h1
  have c3 : ¬ (beam.primarySpan = beam.primarySpan + beam.secondarySpan) := by
    intro h
    linarith
  simp [twoSpanUnequal.getShearForceEquation, c1, c2, c3]
  all_goals first
  | linarith
  | (constructor <;> linarith)

theorem tsShear_support_false (beam : Beam) (load : ℚ)
    (h1 : 0 < beam.primarySpan) (h2 : 0 < beam.secondarySpan) :
    twoSpanUnequal.getShearForceEquation beam load beam.primarySpan (some false) =
      .ok ⟨beam.primarySpan,
        twoSpanUnequal.getR1 beam load (twoSpanUnequal.getM1 beam load) +
        twoSpanUnequal.getR2 beam load
          (twoSpanUnequal.getR1 beam load (twoSpanUnequal.getM1 beam load))
          (twoSpanUnequal.getR3 beam load (twoSpanUnequal.getM1 beam load)) -
        load * beam.primarySpan⟩ := by
  have c1 : ¬ (beam.primarySpan < 0 ∨
      beam.primarySpan > beam.primarySpan + beam.secondarySpan) := by
    push_neg
    constructor <;> linarith
  have c2 : ¬ (beam.primarySpan = 0) := ne_of_gt h1
  have c3 : ¬ (beam.primarySpan = beam.primarySpan + beam.secondarySpan) := by
    intro h
    linarith
  simp [twoSpanUnequal.getShearForceEquation, c1, c2, c3]
  all_goals first
  | linarith
  | (constructor <;> linarith)

theorem tsShear_support_omitted (beam : Beam) (load : ℚ)
    (h1 : 0 < beam.primarySpan) (h2 : 0 < beam.secondarySpan) :
    twoSpanUnequal.getShearForceEquation beam load beam.primarySpan none =
      .ok ⟨beam.primarySpan,
        twoSpanUnequal.getR1 beam load (twoSpanUnequal.getM1 beam load) +
        twoSpanUnequal.getR2 beam load
          (twoSpanUnequal.getR1 beam load (twoSpanUnequal.getM1 beam load))
          (twoSpanUnequal.getR3 beam load (twoSpanUnequal.getM1 beam load)) -
        load * beam.primarySpan⟩ := by
  have c1 : ¬ (beam.primarySpan < 0 ∨
      beam.primarySpan > beam.primarySpan + beam.secondarySpan) := by
    push_neg
    constructor <;> linarith
  have c2 : ¬ (beam.primarySpan = 0) := ne_of_gt h1
  have c3 : ¬ (beam.primarySpan = beam.primarySpan + beam.secondarySpan) := by
    intro h
    linarith
  simp [twoSpanUnequal.getShearForceEquation, c1, c2, c3]
  all_goals first
  | linarith
  | (constructor <;> linarith)

theorem tsBM_zero (beam : Beam) (load : ℚ) (ob : Option Bool)
    (h : 0 ≤ beam.primarySpan + beam.secondarySpan) :
    twoSpanUnequal.getBendingMomentEquation beam load 0 ob = .ok ⟨0, 0⟩ := by
  have c1 : ¬ ((0 : ℚ) < 0 ∨ (0 : ℚ) > beam.primarySpan + beam.secondarySpan) := by
    push_neg
    exact ⟨le_refl 0, h⟩
  simp [twoSpanUnequal.getBendingMomentEquation, c1]
  all_goals first
  | linarith
  | (constructor <;> linarith)

theorem tsBM_total (beam : Beam) (load : ℚ) (ob : Option Bool)
    (h : 0 ≤ beam.primarySpan + beam.secondarySpan) :
    twoSpanUnequal.getBendingMomentEquation beam load
      (beam.primarySpan + beam.secondarySpan) ob =
      .ok ⟨beam.primarySpan + beam.secondarySpan, 0⟩ := by
  have c1 : ¬ (beam.primarySpan + beam.secondarySpan < 0 ∨
      beam.primarySpan + beam.secondarySpan > beam.primarySpan + beam.secondarySpan) := by
    push_neg
    exact ⟨h, le_refl _⟩
  simp [twoSpanUnequal.getBendingMomentEquation, c1]
  all_goals first
  | linarith
  | (constructor <;> linarith)

theorem tsBM_left (beam : Beam) (load x : ℚ) (ob : Option Bool)
    (h0 : 0 < x) (hx : x < beam.primarySpan) (h2 : 0 ≤ beam.secondarySpan) :
    twoSpanUnequal.getBendingMomentEquation beam load x ob =
      .ok ⟨x, -1 * (twoSpanUnequal.getR1 beam load (twoSpanUnequal.getM1 beam load) * x -
        load * x ^ 2 * (1 / 2))⟩ := by
  have c1 : ¬ (x < 0 ∨ x > beam.primarySpan + beam.secondarySpan) := by
    push_neg
    constructor <;> linarith
  have c2 : ¬ (x = 0) := ne_of_gt h0
  have c3 : ¬ (x = beam.primarySpan + beam.secondarySpan) := by
    intro h
    linarith
  simp [twoSpanUnequal.getBendingMomentEquation, c1, c2, c3, hx]
  all_goals first
  | linarith
  | (constructor <;> linarith)

theorem tsBM_support (beam : Beam) (load : ℚ) (ob : Option Bool)
    (h1 : 0 < beam.primarySpan) (h2 : 0 < beam.secondarySpan) :
    twoSpanUnequal.getBendingMomentEquation beam load beam.primarySpan ob =
      .ok ⟨beam.primarySpan,
        -1 * (twoSpanUnequal.getR1 beam load (twoSpanUnequal.getM1 beam load) *
          beam.primarySpan - 1 / 2 * (load * beam.primarySpan ^ 2))⟩ := by
  have c1 : ¬ (beam.primarySpan < 0 ∨
      beam.primarySpan > beam.primarySpan + beam.secondarySpan) := by
    push_neg
    constructor <;> linarith
  have c2 : ¬ (beam.primarySpan = 0) := ne_of_gt h1
  have c3 : ¬ (beam.primarySpan = beam.primarySpan + beam.secondarySpan) := by
    intro h
    linarith
  simp [twoSpanUnequal.getBendingMomentEquation, c1, c2, c3]
  all_goals first
  | linarith
  | (constructor <;> linarith)

theorem tsBM_right (beam : Beam) (load x : ℚ) (ob : Option Bool)
    (h1 : 0 < beam.primarySpan) (hgt : beam.primarySpan < x)
    (hlt : x < beam.primarySpan + beam.secondarySpan) :
    twoSpanUnequal.getBendingMomentEquation beam load x ob =
      .ok ⟨x, -1 * (twoSpanUnequal.getR1 beam load (twoSpanUnequal.getM1 beam load) * x +
        twoSpanUnequal.getR2 beam load
          (twoSpanUnequal.getR1 beam load (twoSpanUnequal.getM1 beam load))
          (twoSpanUnequal.getR3 beam load (twoSpanUnequal.getM1 beam load)) *
          (x - beam.primarySpan) - 1 / 2 * load * x ^ 2)⟩ := by
  have c1 : ¬ (x < 0 ∨ x > beam.primarySpan + beam.secondarySpan) := by
    push_neg
    constructor <;> linarith
  have c2 : ¬ (x = 0) := by
    intro h
    linarith
  have c3 : ¬ (x = beam.primarySpan + beam.secondarySpan) := by
    intro h
    linarith
  have c4 : ¬ (x < beam.primarySpan) := not_lt.mpr (le_of_lt hgt)
  have c5 : ¬ (x = beam.primarySpan) := by
    intro h
    linarith
  simp [twoSpanUnequal.getBendingMomentEquation, c1, c2, c3, c4, c5, hgt]
  all_goals first
  | linarith
  | (constructor <;> linarith)

theorem tsDefl_zero (beam : Beam) (load : ℚ)
    (h : 0 ≤ beam.primarySpan + beam.secondarySpan) :
    twoSpanUnequal.getDeflectionEquation beam load 0 = .ok ⟨0, 0⟩ := by
  have c1 : ¬ ((0 : ℚ) < 0 ∨ (0 : ℚ) > beam.primarySpan + beam.secondarySpan) := by
    push_neg
    exact ⟨le_refl 0, h⟩
  simp [twoSpanUnequal.getDeflectionEquation, c1]
  all_goals first
  | linarith
  | (constructor <;> linarith)

theorem tsDefl_left (beam : Beam) (load x : ℚ)
    (h0 : 0 < x) (hx : x ≤ beam.primarySpan) (h2 : 0 ≤ beam.secondarySpan) :
    twoSpanUnequal.getDeflectionEquation beam load x =
      .ok ⟨x, x / (24 * (beam.material.properties.EI / 1000 ^ 3)) *
        (4 * twoSpanUnequal.getR1 beam load (twoSpanUnequal.getM1 beam load) * x ^ 2 -
          load * x ^ 3 + load * beam.primarySpan ^ 3 -
          4 * twoSpanUnequal.getR1 beam load (twoSpanUnequal.getM1 beam load) *
            beam.primarySpan ^ 2) * 1000 * beam.material.properties.j2⟩ := by
  have c1 : ¬ (x < 0 ∨ x > beam.primarySpan + beam.secondarySpan) := by
    push_neg
    constructor <;> linarith
  have c2 : ¬ (x = 0) := ne_of_gt h0
  simp [twoSpanUnequal.getDeflectionEquation, c1, c2, hx]
  all_goals first
  | linarith
  | (constructor <;> linarith)

theorem tsDefl_right (beam : Beam) (load x : ℚ)
    (h1 : 0 ≤ beam.primarySpan) (hgt : beam.primarySpan < x)
    (hlt : x ≤ beam.primarySpan + beam.secondarySpan) :
    twoSpanUnequal.getDeflectionEquation beam load x =
      .ok ⟨x, (twoSpanUnequal.getR1 beam load (twoSpanUnequal.getM1 beam load) * x / 6 *
          (x ^ 2 - beam.primarySpan ^ 2) +
        twoSpanUnequal.getR2 beam load
          (twoSpanUnequal.getR1 beam load (twoSpanUnequal.getM1 beam load))
          (twoSpanUnequal.getR3 beam load (twoSpanUnequal.getM1 beam load)) * x / 6 *
          (x ^ 2 - 3 * beam.primarySpan * x + 3 * beam.primarySpan ^ 2) -
        twoSpanUnequal.getR2 beam load
          (twoSpanUnequal.getR1 beam load (twoSpanUnequal.getM1 beam load))
          (twoSpanUnequal.getR3 beam load (twoSpanUnequal.getM1 beam load)) *
          beam.primarySpan ^ 3 / 6 -
        load * x / 24 * (x ^ 3 - beam.primarySpan ^ 3)) * 1 /
          (beam.material.properties.EI / 1000 ^ 3) * 1000 *
          beam.material.properties.j2⟩ := by
  have c1 : ¬ (x < 0 ∨ x > beam.primarySpan + beam.secondarySpan) := by
    push_neg
    constructor <;> linarith
  have c2 : ¬ (x = 0) := by
    intro h
    linarith
  have c3 : ¬ (x ≤ beam.primarySpan) := not_le.mpr hgt
  simp [twoSpanUnequal.getDeflectionEquation, c1, c2, c3, hgt]
  all_goals first
  | linarith
  | (constructor <;> linarith)

/-- C1 counterexample: at the concrete scenario beam (L1 = 4, L2 = 6) with
load 5, calling the two-span shear-force equation at x = L1 = 4 with the
`isPrimarySpan` flag omitted does NOT fail: the JavaScript default
`isPrimarySpan = false` applies and the call returns the right-side value
R1 + R2 − w·L1 = 215/12, so the equation silently chooses a side. -/
theorem claimC1_counterexample :
    twoSpanUnequal.getShearForceEquation beamTS 5 4 none = .ok ⟨4, 215 / 12⟩ ∧
    ¬ failsInvalidArgument (twoSpanUnequal.getShearForceEquation beamTS 5 4 none) := by
  have h : twoSpanUnequal.getShearForceEquation beamTS 5 4 none = .ok ⟨4, 215 / 12⟩ := by
    have h0 := tsShear_support_omitted beamTS 5 (by norm_num [beamTS]) (by norm_num [beamTS])
    rw [show beamTS.primarySpan = 4 from rfl] at h0
    rw [h0]
    norm_num [twoSpanUnequal.getR1, twoSpanUnequal.getR2, twoSpanUnequal.getR3,
      twoSpanUnequal.getM1, beamTS]
  refine ⟨h, ?_⟩
  rintro ⟨msg, hmsg⟩
  rw [h] at hmsg
  exact Except.noConfusion hmsg

/-- C1 (amended): for every two-span beam with positive spans, a call of the
shear-force equation at exactly x = L1 that omits the `isPrimarySpan` flag
does not fail; the default `isPrimarySpan = false` applies and the equation
silently returns the right-side (secondary-span) value R1 + R2 − w·L1. -/
theorem claimC1_amended_omitted_flag (beam : Beam) (load : ℚ)
    (h1 : 0 < beam.primarySpan) (h2 : 0 < beam.secondarySpan) :
    twoSpanUnequal.getShearForceEquation beam load beam.primarySpan none =
      .ok ⟨beam.primarySpan,
        twoSpanUnequal.getR1 beam load (twoSpanUnequal.getM1 beam load) +
        twoSpanUnequal.getR2 beam load
          (twoSpanUnequal.getR1 beam load (twoSpanUnequal.getM1 beam load))
          (twoSpanUnequal.getR3 beam load (twoSpanUnequal.getM1 beam load)) -
        load * beam.primarySpan⟩ :=
  tsShear_support_omitted beam load h1 h2

/-- C1 witness for the amended statement at the concrete scenario beam. -/
theorem claimC1_amended_omitted_flag_witness :
    twoSpanUnequal.getShearForceEquation beamTS 5 beamTS.primarySpan none =
      .ok ⟨beamTS.primarySpan,
        twoSpanUnequal.getR1 beamTS 5 (twoSpanUnequal.getM1 beamTS 5) +
        twoSpanUnequal.getR2 beamTS 5
          (twoSpanUnequal.getR1 beamTS 5 (twoSpanUnequal.getM1 beamTS 5))
          (twoSpanUnequal.getR3 beamTS 5 (twoSpanUnequal.getM1 beamTS 5)) -
        5 * beamTS.primarySpan⟩ :=
  claimC1_amended_omitted_flag beamTS 5 (by norm_num [beamTS]) (by norm_num [beamTS])

/-- C2: for every two-span beam with positive spans, the captured reactions
satisfy M1 = −(w·L2³ + w·L1³)/(8·(L1+L2)), R1 = M1/L1 + w·L1/2,
R3 = M1/L2 + w·L2/2, R2 = w·(L1+L2) − R1 − R3; and at the concrete scenario
(L1 = 4, L2 = 6, w = 5): M1 = −17.5, R1 = 5.625,
ShearForce(4, true) = −115/8 = −14.375 and
ShearForce(4, false) = 215/12 = 17.91666... exactly. -/
theorem claimC2_reactions (beam : Beam) (load : ℚ)
    (h1 : 0 < beam.primarySpan) (h2 : 0 < beam.secondarySpan) :
    (twoSpanUnequal.getM1 beam load =
      -(load * beam.secondarySpan ^ 3 + load * beam.primarySpan ^ 3) /
        (8 * (beam.primarySpan + beam.secondarySpan))) ∧
    (twoSpanUnequal.getR1 beam load (twoSpanUnequal.getM1 beam load) =
      twoSpanUnequal.getM1 beam load / beam.primarySpan + load * beam.primarySpan / 2) ∧
    (twoSpanUnequal.getR3 beam load (twoSpanUnequal.getM1 beam load) =
      twoSpanUnequal.getM1 beam load / beam.secondarySpan + load * beam.secondarySpan / 2) ∧
    (twoSpanUnequal.getR2 beam load
        (twoSpanUnequal.getR1 beam load (twoSpanUnequal.getM1 beam load))
        (twoSpanUnequal.getR3 beam load (twoSpanUnequal.getM1 beam load)) =
      load * (beam.primarySpan + beam.secondarySpan) -
        twoSpanUnequal.getR1 beam load (twoSpanUnequal.getM1 beam load) -
        twoSpanUnequal.getR3 beam load (twoSpanUnequal.getM1 beam load)) ∧
    twoSpanUnequal.getM1 beamTS 5 = -35 / 2 ∧
    twoSpanUnequal.getR1 beamTS 5 (twoSpanUnequal.getM1 beamTS 5) = 45 / 8 ∧
    twoSpanUnequal.getShearForceEquation beamTS 5 4 (some true) = .ok ⟨4, -115 / 8⟩ ∧
    twoSpanUnequal.getShearForceEquation beamTS 5 4 (some false) = .ok ⟨4, 215 / 12⟩ := by
  refine ⟨?_, rfl, rfl, ?_, ?_, ?_, ?_, ?_⟩
  · rw [twoSpanUnequal.getM1]
    ring
  · rw [twoSpanUnequal.getR2]
    ring
  · norm_num [twoSpanUnequal.getM1, beamTS]
  · norm_num [twoSpanUnequal.getR1, twoSpanUnequal.getM1, beamTS]
  · have h0 := tsShear_support_true beamTS 5 (by norm_num [beamTS]) (by norm_num [beamTS])
    rw [show beamTS.primarySpan = 4 from rfl] at h0
    rw [h0]
    norm_num [twoSpanUnequal.getR1, twoSpanUnequal.getM1, beamTS]
  · have h0 := tsShear_support_false beamTS 5 (by norm_num [beamTS]) (by norm_num [beamTS])
    rw [show beamTS.primarySpan = 4 from rfl] at h0
    rw [h0]
    norm_num [twoSpanUnequal.getR1, twoSpanUnequal.getR2, twoSpanUnequal.getR3,
      twoSpanUnequal.getM1, beamTS]

/-- C2 witness: the general reaction identities applied at the concrete
scenario beam (L1 = 4, L2 = 6, w = 5). -/
theorem claimC2_reactions_witness :
    (twoSpanUnequal.getM1 beamTS 5 =
      -(5 * beamTS.secondarySpan ^ 3 + 5 * beamTS.primarySpan ^ 3) /
        (8 * (beamTS.primarySpan + beamTS.secondarySpan))) ∧
    (twoSpanUnequal.getR1 beamTS 5 (twoSpanUnequal.getM1 beamTS 5) =
      twoSpanUnequal.getM1 beamTS 5 / beamTS.primarySpan + 5 * beamTS.primarySpan / 2) ∧
    (twoSpanUnequal.getR3 beamTS 5 (twoSpanUnequal.getM1 beamTS 5) =
      twoSpanUnequal.getM1 beamTS 5 / beamTS.secondarySpan + 5 * beamTS.secondarySpan / 2) ∧
    (twoSpanUnequal.getR2 beamTS 5
        (twoSpanUnequal.getR1 beamTS 5 (twoSpanUnequal.getM1 beamTS 5))
        (twoSpanUnequal.getR3 beamTS 5 (twoSpanUnequal.getM1 beamTS 5)) =
      5 * (beamTS.primarySpan + beamTS.secondarySpan) -
        twoSpanUnequal.getR1 beamTS 5 (twoSpanUnequal.getM1 beamTS 5) -
        twoSpanUnequal.getR3 beamTS 5 (twoSpanUnequal.getM1 beamTS 5)) ∧
    twoSpanUnequal.getM1 beamTS 5 = -35 / 2 ∧
    twoSpanUnequal.getR1 beamTS 5 (twoSpanUnequal.getM1 beamTS 5) = 45 / 8 ∧
    twoSpanUnequal.getShearForceEquation beamTS 5 4 (some true) = .ok ⟨4, -115 / 8⟩ ∧
    twoSpanUnequal.getShearForceEquation beamTS 5 4 (some false) = .ok ⟨4, 215 / 12⟩ :=
  claimC2_reactions beamTS 5 (by norm_num [beamTS]) (by norm_num [beamTS])

/-- C4: for every two-span beam with positive spans and any load, the
bending moment is continuous at x = L1: the left-branch formula, the
dedicated transition-point formula, and the right-branch formula evaluated
at x = L1 all yield exactly the same value, and the equation returns this
common value at x = L1 (regardless of the flag). -/
theorem claimC4_bm_continuous (beam : Beam) (load : ℚ) (ob : Option Bool)
    (h1 : 0 < beam.primarySpan) (h2 : 0 < beam.secondarySpan) :
    (-1 * (twoSpanUnequal.getR1 beam load (twoSpanUnequal.getM1 beam load) *
        beam.primarySpan - load * beam.primarySpan ^ 2 * (1 / 2)) =
      -1 * (twoSpanUnequal.getR1 beam load (twoSpanUnequal.getM1 beam load) *
        beam.primarySpan - 1 / 2 * (load * beam.primarySpan ^ 2))) ∧
    (-1 * (twoSpanUnequal.getR1 beam load (twoSpanUnequal.getM1 beam load) *
        beam.primarySpan +
        twoSpanUnequal.getR2 beam load
          (twoSpanUnequal.getR1 beam load (twoSpanUnequal.getM1 beam load))
          (twoSpanUnequal.getR3 beam load (twoSpanUnequal.getM1 beam load)) *
          (beam.primarySpan - beam.primarySpan) -
        1 / 2 * load * beam.primarySpan ^ 2) =
      -1 * (twoSpanUnequal.getR1 beam load (twoSpanUnequal.getM1 beam load) *
        beam.primarySpan - 1 / 2 * (load * beam.primarySpan ^ 2))) ∧
    twoSpanUnequal.getBendingMomentEquation beam load beam.primarySpan ob =
      .ok ⟨beam.primarySpan,
        -1 * (twoSpanUnequal.getR1 beam load (twoSpanUnequal.getM1 beam load) *
          beam.primarySpan - 1 / 2 * (load * beam.primarySpan ^ 2))⟩ := by
  exact ⟨by ring, by ring, tsBM_support beam load ob h1 h2⟩

/-- C4 witness: continuity of the bending moment at the interior support of
the concrete scenario beam. -/
theorem claimC4_bm_continuous_witness :
    (-1 * (twoSpanUnequal.getR1 beamTS 5 (twoSpanUnequal.getM1 beamTS 5) *
        beamTS.primarySpan - 5 * beamTS.primarySpan ^ 2 * (1 / 2)) =
      -1 * (twoSpanUnequal.getR1 beamTS 5 (twoSpanUnequal.getM1 beamTS 5) *
        beamTS.primarySpan - 1 / 2 * (5 * beamTS.primarySpan ^ 2))) ∧
    (-1 * (twoSpanUnequal.getR1 beamTS 5 (twoSpanUnequal.getM1 beamTS 5) *
        beamTS.primarySpan +
        twoSpanUnequal.getR2 beamTS 5
          (twoSpanUnequal.getR1 beamTS 5 (twoSpanUnequal.getM1 beamTS 5))
          (twoSpanUnequal.getR3 beamTS 5 (twoSpanUnequal.getM1 beamTS 5)) *
          (beamTS.primarySpan - beamTS.primarySpan) -
        1 / 2 * 5 * beamTS.primarySpan ^ 2) =
      -1 * (twoSpanUnequal.getR1 beamTS 5 (twoSpanUnequal.getM1 beamTS 5) *
        beamTS.primarySpan - 1 / 2 * (5 * beamTS.primarySpan ^ 2))) ∧
    twoSpanUnequal.getBendingMomentEquation beamTS 5 beamTS.primarySpan (some true) =
      .ok ⟨beamTS.primarySpan,
        -1 * (twoSpanUnequal.getR1 beamTS 5 (twoSpanUnequal.getM1 beamTS 5) *
          beamTS.primarySpan - 1 / 2 * (5 * beamTS.primarySpan ^ 2))⟩ :=
  claimC4_bm_continuous beamTS 5 (some true) (by norm_num [beamTS]) (by norm_num [beamTS])

/-- C5: for every quantity and both conditions (with a valid beam:
positive primary span, non-negative secondary span), evaluating the
returned equation at any x with x < 0 or x > totalLength fails with an
InvalidArgument error, and at any x inside [0, totalLength] (with a side
flag supplied where applicable) it does not fail. -/
theorem claimC5_domain (beam : Beam) (load x : ℚ) (b : Bool)
    (h1 : 0 < beam.primarySpan) (h2 : 0 ≤ beam.secondarySpan) :
    (x < 0 ∨ x > beam.primarySpan →
      failsInvalidArgument (simplySupported.getDeflectionEquation beam load x) ∧
      failsInvalidArgument (simplySupported.getBendingMomentEquation beam load x) ∧
      failsInvalidArgument (simplySupported.getShearForceEquation beam load x)) ∧
    (0 ≤ x → x ≤ beam.primarySpan →
      returnsOk (simplySupported.getDeflectionEquation beam load x) ∧
      returnsOk (simplySupported.getBendingMomentEquation beam load x) ∧
      returnsOk (simplySupported.getShearForceEquation beam load x)) ∧
    (x < 0 ∨ x > beam.primarySpan + beam.secondarySpan →
      failsInvalidArgument (twoSpanUnequal.getDeflectionEquation beam load x) ∧
      failsInvalidArgument (twoSpanUnequal.getBendingMomentEquation beam load x (some b)) ∧
      failsInvalidArgument (twoSpanUnequal.getShearForceEquation beam load x (some b))) ∧
    (0 ≤ x → x ≤ beam.primarySpan + beam.secondarySpan →
      returnsOk (twoSpanUnequal.getDeflectionEquation beam load x) ∧
      returnsOk (twoSpanUnequal.getBendingMomentEquation beam load x (some b)) ∧
      returnsOk (twoSpanUnequal.getShearForceEquation beam load x (some b))) := by
  refine ⟨?_, ?_, ?_, ?_⟩
  · intro h
    have hswap : x > beam.primarySpan ∨ x < 0 := h.symm
    refine ⟨⟨"Invalid x value", ?_⟩, ⟨"Invalid x value", ?_⟩, ⟨"Invalid x value", ?_⟩⟩
    · simp [simplySupported.getDeflectionEquation, hswap]
    · simp [simplySupported.getBendingMomentEquation, hswap]
    · simp [simplySupported.getShearForceEquation, hswap]
  · intro hx0 hxL
    have hdom : ¬ (x > beam.primarySpan ∨ x < 0) := by
      push_neg
      exact ⟨hxL, hx0⟩
    refine ⟨⟨⟨x, -1 * (load * x / (24 * (beam.material.properties.EI / 1000 ^ 3))) *
        (beam.primarySpan ^ 3 - 2 * beam.primarySpan * x ^ 2 + x ^ 3) *
        beam.material.properties.j2 * 1000⟩, ?_⟩,
      ⟨⟨x, load * x / 2 * (beam.primarySpan - x) * (-1)⟩, ?_⟩,
      ⟨⟨x, load * (beam.primarySpan / 2 - x)⟩, ?_⟩⟩
    · simp [simplySupported.getDeflectionEquation, hdom]
    · simp [simplySupported.getBendingMomentEquation, hdom]
    · simp [simplySupported.getShearForceEquation, hdom]
  · intro h
    refine ⟨⟨"Invalid x value. Must be between 0 and total length", ?_⟩,
      ⟨"Invalid x value. Must be between 0 and total length", ?_⟩,
      ⟨"Invalid x value. Must be between 0 and total length", ?_⟩⟩
    · simp [twoSpanUnequal.getDeflectionEquation, h]
    · simp [twoSpanUnequal.getBendingMomentEquation, h]
    · simp [twoSpanUnequal.getShearForceEquation, h]
  · intro hx0 hxT
    by_cases h0 : x = 0
    · subst h0
      exact ⟨⟨_, tsDefl_zero beam load (by linarith)⟩,
        ⟨_, tsBM_zero beam load (some b) (by linarith)⟩,
        ⟨_, tsShear_zero beam load (some b) (by linarith)⟩⟩
    have hx0' : 0 < x := lt_of_le_of_ne hx0 (Ne.symm h0)
    have hdefl : returnsOk (twoSpanUnequal.getDeflectionEquation beam load x) := by
      by_cases hle : x ≤ beam.primarySpan
      · exact ⟨_, tsDefl_left beam load x hx0' hle h2⟩
      · push_neg at hle
        exact ⟨_, tsDefl_right beam load x (le_of_lt h1) hle hxT⟩
    by_cases htot : x = beam.primarySpan + beam.secondarySpan
    · have hbm : returnsOk (twoSpanUnequal.getBendingMomentEquation beam load x (some b)) := by
        rw [htot]
        exact ⟨_, tsBM_total beam load (some b) (by linarith)⟩
      have hsf : returnsOk (twoSpanUnequal.getShearForceEquation beam load x (some b)) := by
        rw [htot]
        exact ⟨_, tsShear_total beam load (some b) (by linarith)⟩
      exact ⟨hdefl, hbm, hsf⟩
    have hlt : x < beam.primarySpan + beam.secondarySpan := lt_of_le_of_ne hxT htot
    rcases lt_trichotomy x beam.primarySpan with hc | hc | hc
    · exact ⟨hdefl, ⟨_, tsBM_left beam load x (some b) hx0' hc h2⟩,
        ⟨_, tsShear_left beam load x (some b) hx0' hc h2⟩⟩
    · have h2' : 0 < beam.secondarySpan := by
        rw [hc] at hlt
        linarith
      have hbm : returnsOk (twoSpanUnequal.getBendingMomentEquation beam load x (some b)) := by
        rw [hc]
        exact ⟨_, tsBM_support beam load (some b) h1 h2'⟩
      have hsf : returnsOk (twoSpanUnequal.getShearForceEquation beam load x (some b)) := by
        rw [hc]
        cases b
        · exact ⟨_, tsShear_support_false beam load h1 h2'⟩
        · exact ⟨_, tsShear_support_true beam load h1 h2'⟩
      exact ⟨hdefl, hbm, hsf⟩
    · exact ⟨hdefl, ⟨_, tsBM_right beam load x (some b) h1 hc hlt⟩,
        ⟨_, tsShear_right beam load x (some b) h1 hc hlt⟩⟩

/-- C5 witness: concrete domain checks on the scenario beam (L1 = 4, L2 = 6):
out-of-domain evaluation fails and an in-domain evaluation succeeds. -/
theorem claimC5_domain_witness :
    (failsInvalidArgument (twoSpanUnequal.getDeflectionEquation beamTS 5 11) ∧
      failsInvalidArgument (twoSpanUnequal.getBendingMomentEquation beamTS 5 11 (some true)) ∧
      failsInvalidArgument (twoSpanUnequal.getShearForceEquation beamTS 5 11 (some true))) ∧
    (returnsOk (twoSpanUnequal.getDeflectionEquation beamTS 5 7) ∧
      returnsOk (twoSpanUnequal.getBendingMomentEquation beamTS 5 7 (some true)) ∧
      returnsOk (twoSpanUnequal.getShearForceEquation beamTS 5 7 (some true))) := by
  constructor
  · exact (claimC5_domain beamTS 5 11 true (by norm_num [beamTS])
      (by norm_num [beamTS])).2.2.1 (by norm_num [beamTS])
  · exact (claimC5_domain beamTS 5 7 true (by norm_num [beamTS])
      (by norm_num [beamTS])).2.2.2 (by norm_num) (by norm_num [beamTS])

/-- C6: for every simply-supported beam with span L > 0, load w, and every x
in [0, L], the shear-force equation returns exactly w·(L/2 − x) and the
bending-moment equation returns exactly −(w·x/2)·(L − x); in particular for
L = 6, w = 10: BendingMoment(3) = −45, ShearForce(0) = 30,
ShearForce(6) = −30. -/
theorem claimC6_simply_formulas (beam : Beam) (load x : ℚ)
    (hL : 0 < beam.primarySpan) (hx0 : 0 ≤ x) (hxL : x ≤ beam.primarySpan) :
    (simplySupported.getShearForceEquation beam load x =
      .ok ⟨x, load * (beam.primarySpan / 2 - x)⟩) ∧
    (simplySupported.getBendingMomentEquation beam load x =
      .ok ⟨x, -(load * x / 2) * (beam.primarySpan - x)⟩) ∧
    simplySupported.getBendingMomentEquation beamSS 10 3 = .ok ⟨3, -45⟩ ∧
    simplySupported.getShearForceEquation beamSS 10 0 = .ok ⟨0, 30⟩ ∧
    simplySupported.getShearForceEquation beamSS 10 6 = .ok ⟨6, -30⟩ := by
  have hdom : ¬ (x > beam.primarySpan ∨ x < 0) := by
    push_neg
    exact ⟨hxL, hx0⟩
  refine ⟨?_, ?_, ?_, ?_, ?_⟩
  · simp [simplySupported.getShearForceEquation, hdom]
  · have hy : load * x / 2 * (beam.primarySpan - x) * (-1) =
        -(load * x / 2) * (beam.primarySpan - x) := by ring
    simp only [simplySupported.getBendingMomentEquation, if_neg hdom, hy]
  · norm_num [simplySupported.getBendingMomentEquation, beamSS]
  · norm_num [simplySupported.getShearForceEquation, beamSS]
  · norm_num [simplySupported.getShearForceEquation, beamSS]

/-- C6 witness: the general formulas applied at the concrete scenario beam
(L = 6, w = 10, x = 3). -/
theorem claimC6_simply_formulas_witness :
    (simplySupported.getShearForceEquation beamSS 10 3 =
      .ok ⟨3, 10 * (beamSS.primarySpan / 2 - 3)⟩) ∧
    (simplySupported.getBendingMomentEquation beamSS 10 3 =
      .ok ⟨3, -(10 * 3 / 2) * (beamSS.primarySpan - 3)⟩) ∧
    simplySupported.getBendingMomentEquation beamSS 10 3 = .ok ⟨3, -45⟩ ∧
    simplySupported.getShearForceEquation beamSS 10 0 = .ok ⟨0, 30⟩ ∧
    simplySupported.getShearForceEquation beamSS 10 6 = .ok ⟨6, -30⟩ :=
  claimC6_simply_formulas beamSS 10 3 (by norm_num [beamSS]) (by norm_num)
    (by norm_num [beamSS])

/-- C7: for every two-span beam with positive spans and load such that R2 is
nonzero, the shear-force equation returns different values at the interior
support depending on the side flag, and their difference (right side minus
left side) is exactly R2. -/
theorem claimC7_shear_jump (beam : Beam) (load : ℚ)
    (h1 : 0 < beam.primarySpan) (h2 : 0 < beam.secondarySpan)
    (hr2 : twoSpanUnequal.getR2 beam load
        (twoSpanUnequal.getR1 beam load (twoSpanUnequal.getM1 beam load))
        (twoSpanUnequal.getR3 beam load (twoSpanUnequal.getM1 beam load)) ≠ 0) :
    ∃ yL yR,
      twoSpanUnequal.getShearForceEquation beam load beam.primarySpan (some true) =
        .ok ⟨beam.primarySpan, yL⟩ ∧
      twoSpanUnequal.getShearForceEquation beam load beam.primarySpan (some false) =
        .ok ⟨beam.primarySpan, yR⟩ ∧
      yL ≠ yR ∧
      yR - yL = twoSpanUnequal.getR2 beam load
        (twoSpanUnequal.getR1 beam load (twoSpanUnequal.getM1 beam load))
        (twoSpanUnequal.getR3 beam load (twoSpanUnequal.getM1 beam load)) := by
  refine ⟨_, _, tsShear_support_true beam load h1 h2,
    tsShear_support_false beam load h1 h2, ?_, by ring⟩
  intro heq
  apply hr2
  linarith [heq]

/-- C7 witness: the genuine shear jump at the interior support of the
concrete scenario beam (R2 = 775/24 ≠ 0). -/
theorem claimC7_shear_jump_witness :
    ∃ yL yR,
      twoSpanUnequal.getShearForceEquation beamTS 5 beamTS.primarySpan (some true) =
        .ok ⟨beamTS.primarySpan, yL⟩ ∧
      twoSpanUnequal.getShearForceEquation beamTS 5 beamTS.primarySpan (some false) =
        .ok ⟨beamTS.primarySpan, yR⟩ ∧
      yL ≠ yR ∧
      yR - yL = twoSpanUnequal.getR2 beamTS 5
        (twoSpanUnequal.getR1 beamTS 5 (twoSpanUnequal.getM1 beamTS 5))
        (twoSpanUnequal.getR3 beamTS 5 (twoSpanUnequal.getM1 beamTS 5)) :=
  claimC7_shear_jump beamTS 5 (by norm_num [beamTS]) (by norm_num [beamTS])
    (by norm_num [twoSpanUnequal.getR2, twoSpanUnequal.getR1, twoSpanUnequal.getR3,
      twoSpanUnequal.getM1, beamTS])

/-- C9: for every two-span beam with positive spans and every load, the
deflection equation evaluated at x = L1 returns exactly 0 (the left-branch
polynomial vanishes identically at x = L1), just as it does at x = 0. -/
theorem claimC9_deflection_support_zero (beam : Beam) (load : ℚ)
    (h1 : 0 < beam.primarySpan) (h2 : 0 < beam.secondarySpan) :
    twoSpanUnequal.getDeflectionEquation beam load beam.primarySpan =
      .ok ⟨beam.primarySpan, 0⟩ ∧
    twoSpanUnequal.getDeflectionEquation beam load 0 = .ok ⟨0, 0⟩ := by
  constructor
  · have hzero : beam.primarySpan /
        (24 * (beam.material.properties.EI / 1000 ^ 3)) *
        (4 * twoSpanUnequal.getR1 beam load (twoSpanUnequal.getM1 beam load) *
          beam.primarySpan ^ 2 - load * beam.primarySpan ^ 3 +
          load * beam.primarySpan ^ 3 -
          4 * twoSpanUnequal.getR1 beam load (twoSpanUnequal.getM1 beam load) *
            beam.primarySpan ^ 2) * 1000 * beam.material.properties.j2 = 0 := by
      ring
    rw [tsDefl_left beam load beam.primarySpan h1 (le_refl _) (le_of_lt h2), hzero]
  · exact tsDefl_zero beam load (by linarith)

/-- C9 witness: deflection vanishes at the interior support of the concrete
scenario beam. -/
theorem claimC9_deflection_support_zero_witness :
    twoSpanUnequal.getDeflectionEquation beamTS 5 beamTS.primarySpan =
      .ok ⟨beamTS.primarySpan, 0⟩ ∧
    twoSpanUnequal.getDeflectionEquation beamTS 5 0 = .ok ⟨0, 0⟩ :=
  claimC9_deflection_support_zero beamTS 5 (by norm_num [beamTS]) (by norm_num [beamTS])

/-- C10: the two-span analyzer performs no validation: under the precondition
of positive spans, every divisor used by the reaction computation
(primarySpan in getR1, secondarySpan in getR3, 8·(L1+L2) in getM1) is
nonzero; for secondarySpan = 0 the divisor in getR3 is zero and no error is
raised — getR3 still returns a value, here expressed with the
division-by-zero convention of ℚ (the JavaScript computation likewise
completes without throwing, producing a non-finite number). -/
theorem claimC10_no_validation (beam : Beam) (load : ℚ) :
    (0 < beam.primarySpan → 0 < beam.secondarySpan →
      beam.primarySpan ≠ 0 ∧ beam.secondarySpan ≠ 0 ∧
      8 * (beam.primarySpan + beam.secondarySpan) ≠ 0) ∧
    (beam.secondarySpan = 0 →
      twoSpanUnequal.getR3 beam load (twoSpanUnequal.getM1 beam load) =
        twoSpanUnequal.getM1 beam load / 0 + load * 0 / 2) := by
  constructor
  · intro h1 h2
    refine ⟨ne_of_gt h1, ne_of_gt h2, ?_⟩
    have : 0 < 8 * (beam.primarySpan + beam.secondarySpan) := by linarith
    exact ne_of_gt this
  · intro hz
    rw [twoSpanUnequal.getR3, hz]

/-- C10 witness: divisors are nonzero at the concrete two-span scenario beam,
and at a beam with secondarySpan = 0 the getR3 computation still completes. -/
theorem claimC10_no_validation_witness :
    (beamTS.primarySpan ≠ 0 ∧ beamTS.secondarySpan ≠ 0 ∧
      8 * (beamTS.primarySpan + beamTS.secondarySpan) ≠ 0) ∧
    twoSpanUnequal.getR3 beamSS 5 (twoSpanUnequal.getM1 beamSS 5) =
      twoSpanUnequal.getM1 beamSS 5 / 0 + 5 * 0 / 2 :=
  ⟨(claimC10_no_validation beamTS 5).1 (by norm_num [beamTS]) (by norm_num [beamTS]),
   (claimC10_no_validation beamSS 5).2 (by norm_num [beamSS])⟩

/-- C3 witness: the two-span sampler properties at the concrete scenario beam
(L1 = 4, L2 = 6) with the default segment count. -/
theorem claimC3_twoSpan_sampler_witness :
    ((getTwoSpanUnequalXValues beamTS 10).map XValue.value).count beamTS.primarySpan = 2 ∧
    (∃ A B, getTwoSpanUnequalXValues beamTS 10 =
        A ++ ⟨beamTS.primarySpan, true⟩ :: ⟨beamTS.primarySpan, false⟩ :: B ∧
      (∀ v ∈ A.map XValue.value, v < beamTS.primarySpan) ∧
      (∀ v ∈ B.map XValue.value, beamTS.primarySpan < v)) ∧
    ((getTwoSpanUnequalXValues beamTS 10).map XValue.value).getLast? =
      some (beamTS.primarySpan + beamTS.secondarySpan) :=
  claimC3_twoSpan_sampler beamTS (by norm_num [beamTS]) (by norm_num [beamTS])
